import Mathlib

/-!
Verification development for the TL 360 feedback backend (src/server.js).
The repository contains two server variants in one file, separated by a
document marker: variant 1 (JWT session tokens, lines 1-842) and
variant 2 (stateless code submission, lines 843-1502).  Handlers are
shallowly embedded as pure functions from a database state to a
response paired with the next database state; SQL statements become
list operations, JS numbers become rationals, and the JSON values that
can appear in a rating mapping are modelled by a small value type.
-/

namespace TLFB

/-- Model of the JSON values that can appear as a rating in a score
mapping: a (finite) number, JSON null, or an absent value (undefined).
String coercion of ratings is not exercised by the handlers and is not
modelled. -/
inductive RVal where
  | num (q : ℚ)
  | null
  | undef
deriving DecidableEq, Repr

/-- JS Number coercion restricted to RVal: Number of a number is
itself, Number of null is 0, Number of undefined is NaN (modelled as
none).  A some result is exactly a value passing isFinite / not-isNaN. -/
def toNumber : RVal → Option ℚ
  | .num q => some q
  | .null => some 0
  | .undef => none

/-- Whitespace removal at both ends of a character list, the
behaviour of the JS String.prototype.trim.  (The trim of the Lean core
String type is defined by well-founded recursion on byte positions and
does not reduce inside the kernel, so the translation works on the
character list instead.) -/
def trimChars (l : List Char) : List Char :=
  ((l.dropWhile Char.isWhitespace).reverse.dropWhile Char.isWhitespace).reverse

/-- Model of the JS String.prototype.trim. -/
def jsTrim (s : String) : String := String.mk (trimChars s.data)

/-- Model of the JS String.prototype.toUpperCase. -/
def jsToUpper (s : String) : String := String.mk (s.data.map Char.toUpper)

/-- Translation of safeText (src/server.js line 55): a non-string body
field becomes the empty string, a string is trimmed. -/
def safeText : Option String → String
  | some s => jsTrim s
  | none => ""

/-- Translation of safeUpper (src/server.js line 58). -/
def safeUpper (v : Option String) : String := jsToUpper (safeText v)

/-- JS falsiness test for an optional string body field: absent or
empty means falsy. -/
def falsyStr (v : Option String) : Bool := v.getD "" == ""

/-- HTTP response skeleton: status code plus the error message, if any. -/
structure Resp where
  status : Nat
  error : Option String
deriving DecidableEq, Repr

/-- A 200 JSON success response. -/
def okResp : Resp := { status := 200, error := none }

/-- An error response with the given status and message. -/
def errResp (s : Nat) (m : String) : Resp := { status := s, error := some m }

/-- A row of the codes table (both variants): id, token text, owning
team leader and campaign, used flag and used timestamp. -/
structure Code where
  id : Nat
  code : String
  teamLeaderId : String
  campaignId : String
  used : Bool
  usedAt : Option Nat
deriving DecidableEq, Repr

/-- Translation of QUESTION_GROUPS (src/server.js lines 96-102). -/
def QUESTION_GROUPS : List (String × List String) :=
  [("Leadership & Management", ["q1", "q2", "q3"]),
   ("Communication", ["q4", "q5", "q6"]),
   ("Team Support & Development", ["q7", "q8", "q9"]),
   ("Collaboration & Culture", ["q10", "q11", "q12"]),
   ("Execution & Accountability", ["q13", "q14", "q15"])]

/-- Translation of computeCategoryAverages (src/server.js lines
104-119).  The question-averages object is an association list from
question id to the computed average; an absent key is JS undefined, so
Number of it is NaN and fails isFinite, and a member contributes only
when its value is finite and strictly positive (the source condition
Number.isFinite(v) && v > 0). -/
def computeCategoryAverages (questionAverages : List (String × ℚ)) :
    List (String × Option ℚ) :=
  QUESTION_GROUPS.map (fun g =>
    let vals := g.2.filterMap (fun qid =>
      match questionAverages.lookup qid with
      | some v => if 0 < v then some v else none
      | none => none)
    (g.1, if vals.isEmpty then none else some (vals.sum / vals.length)))

/-- Category averages as the specification words them: the mean of the
member question averages that have data (are present in the mapping),
null when no member has data.  Used only to compare with the source
translation computeCategoryAverages. -/
def specCategoryAverages (questionAverages : List (String × ℚ)) :
    List (String × Option ℚ) :=
  QUESTION_GROUPS.map (fun g =>
    let vals := g.2.filterMap (fun qid => questionAverages.lookup qid)
    (g.1, if vals.isEmpty then none else some (vals.sum / vals.length)))

/-- The visibility threshold (src/server.js lines 53 and 861). -/
def MIN_COMMENTS_FOR_DISPLAY : Nat := 3

/-! ## Variant 1 (lines 1-842): state, redemption, submission -/

/-- A row of the feedback table of variant 1. -/
structure FeedbackV1 where
  campaignId : String
  teamLeaderId : String
  scores : List (String × RVal)
  overall : ℚ
  strengthsText : String
  devText : String
  otherText : String
deriving DecidableEq, Repr

/-- The persistent state of variant 1: the four tables.  Campaigns are
id-label pairs, team leaders are id-active pairs. -/
structure DBV1 where
  campaigns : List (String × String)
  teamLeaders : List (String × Bool)
  codes : List Code
  feedback : List FeedbackV1
deriving DecidableEq, Repr

/-- Translation of POST /api/start-session of variant 1
(src/server.js lines 203-233).  The handler runs only SELECT
statements; the returned state is the input state in every branch,
mirroring the absence of any INSERT/UPDATE/DELETE in the source. -/
def startSessionV1 (db : DBV1) (rawCode : Option String) : Resp × DBV1 :=
  let code := safeUpper rawCode
  if code == "" then (errResp 400 "Code is required.", db)
  else
    match db.codes.find? (fun c => jsToUpper (jsTrim c.code) == code) with
    | none => (errResp 404 "Invalid code.", db)
    | some row =>
      if row.used then (errResp 409 "This code has already been used.", db)
      else (okResp, db)

/-- The payload a verified session token decodes to (variant 1):
codeId, campaignId, teamLeaderId, as signed at redemption. -/
structure SessionPayload where
  codeId : Nat
  campaignId : String
  teamLeaderId : String
deriving DecidableEq, Repr

/-- Input of POST /api/submit-feedback of variant 1.  The JWT
collaborator is abstracted: none models a missing/empty sessionToken
field, some none a token that fails verification, some (some p) a
token that verifies to payload p. -/
structure SubmitInV1 where
  sessionToken : Option (Option SessionPayload)
  scores : Option (List (String × RVal))
  strengthsText : Option String
  devText : Option String
  otherText : Option String
deriving DecidableEq, Repr

/-- Translation of the overall-score computation of variant 1
(src/server.js lines 262-264): Object.values, Number coercion, keep
the finite ones; none when no value survives, else their mean. -/
def overallOfScores (scores : List (String × RVal)) : Option ℚ :=
  let values := (scores.map Prod.snd).filterMap toNumber
  if values.isEmpty then none else some (values.sum / values.length)

/-- Overall score as the specification words it: the arithmetic mean
of exactly those supplied rating values that are numeric and in the
valid range 1 to 5, none when the mapping contains no such value.
Used only to compare with the source translation overallOfScores. -/
def specOverallScore (scores : List (String × RVal)) : Option ℚ :=
  let valid := ((scores.map Prod.snd).filterMap toNumber).filter
    (fun v => decide (1 ≤ v ∧ v ≤ 5))
  if valid.isEmpty then none else some (valid.sum / valid.length)

/-- Translation of the UPDATE statement marking a code used
(src/server.js lines 292-295): every row whose id matches gets
used = true and used_at = now. -/
def markUsed (now : Nat) (codeId : Nat) (codes : List Code) : List Code :=
  codes.map (fun c =>
    if c.id == codeId then { c with used := true, usedAt := some now } else c)

/-- Translation of POST /api/submit-feedback of variant 1
(src/server.js lines 235-306), branch for branch in source order:
missing token, missing scores, required written answers, token
verification, payload field check, score values check, then the
transaction (row lookup under lock, conflict check, feedback INSERT,
code UPDATE, commit).  Every error path returns the unchanged state,
mirroring ROLLBACK. -/
def submitFeedbackV1 (db : DBV1) (now : Nat) (inp : SubmitInV1) : Resp × DBV1 :=
  let sTxt := safeText inp.strengthsText
  let dTxt := safeText inp.devText
  let oTxt := safeText inp.otherText
  match inp.sessionToken with
  | none => (errResp 400 "Missing sessionToken.", db)
  | some tok =>
    match inp.scores with
    | none => (errResp 400 "Missing scores.", db)
    | some scores =>
      if sTxt == "" || dTxt == "" || oTxt == "" then
        (errResp 400 "Please complete all written questions before submitting.", db)
      else
        match tok with
        | none => (errResp 401 "Session expired. Please click Start over and re-enter your code.", db)
        | some p =>
          if p.codeId == 0 || p.campaignId == "" || p.teamLeaderId == "" then
            (errResp 400 "Invalid session. Please start over.", db)
          else
            match overallOfScores scores with
            | none => (errResp 400 "Scores incomplete.", db)
            | some overall =>
              match db.codes.find? (fun c => c.id == p.codeId) with
              | none => (errResp 400 "Invalid code session.", db)
              | some c =>
                if c.used then (errResp 409 "This code has already been used.", db)
                else
                  (okResp,
                    { db with
                      feedback := db.feedback ++
                        [{ campaignId := p.campaignId
                         , teamLeaderId := p.teamLeaderId
                         , scores := scores
                         , overall := overall
                         , strengthsText := sTxt
                         , devText := dTxt
                         , otherText := oTxt }]
                      , codes := markUsed now p.codeId db.codes })

/-- Run a list of submit-feedback requests in order against variant 1
(the sequential interleaving of submissions the database serializes). -/
def runSubmitsV1 (db : DBV1) (now : Nat) : List SubmitInV1 → DBV1
  | [] => db
  | r :: rs => runSubmitsV1 (submitFeedbackV1 db now r).2 now rs

/-- The code id a submit request refers to, when its token verifies. -/
def reqCodeId (r : SubmitInV1) : Option Nat :=
  (r.sessionToken.bind id).map (fun p => p.codeId)

/-- How many requests of the trace produce a persisted Feedback row
for the code with id cid: a request counts when it succeeds (status
200) and its verified payload references cid. -/
def okCountFor (db : DBV1) (now : Nat) (cid : Nat) : List SubmitInV1 → Nat
  | [] => 0
  | r :: rs =>
    (if (submitFeedbackV1 db now r).1.status = 200 ∧ reqCodeId r = some cid then 1 else 0)
    + okCountFor (submitFeedbackV1 db now r).2 now cid rs

/-- Total number of successful submissions in a trace. -/
def okCountAll (db : DBV1) (now : Nat) : List SubmitInV1 → Nat
  | [] => 0
  | r :: rs =>
    (if (submitFeedbackV1 db now r).1.status = 200 then 1 else 0)
    + okCountAll (submitFeedbackV1 db now r).2 now rs

/-! ## Variant 1: admin operations -/

/-- Translation of the random token shape of variant 1 (lines 75-80)
is left abstract: the handlers receive the stream of draws the random
generator would produce.  Translation of POST /api/admin/generate-codes
of variant 1 (src/server.js lines 398-435): validate, generate count
tokens, insert them all with ONE multi-row INSERT.  That single
statement violates the unique constraint, and therefore throws and
inserts nothing, exactly when some generated token already exists or
the batch repeats a token; the catch turns this into a 500 response.
The middle component returns the codes of a success response. -/
def generateCodesV1 (db : DBV1) (campaignId teamLeaderId : Option String)
    (count : Option ℚ) (stream : Nat → String) :
    (Resp × Option (List String)) × DBV1 :=
  let cid := safeText campaignId
  let tlid := safeText teamLeaderId
  match count with
  | none => ((errResp 400 "campaignId, teamLeaderId, count required", none), db)
  | some cnt =>
    if cid == "" || tlid == "" || cnt < 1 || 500 < cnt then
      ((errResp 400 "campaignId, teamLeaderId, count required", none), db)
    else if (db.campaigns.lookup cid).isNone then
      ((errResp 400 "Campaign not found", none), db)
    else if ¬ (db.teamLeaders.lookup tlid == some true) then
      ((errResp 400 "Team leader not found / inactive", none), db)
    else
      let newCodes := (List.range ⌈cnt⌉₊).map stream
      if newCodes.Nodup ∧ ∀ t ∈ newCodes, db.codes.all (fun c => ¬ (c.code == t)) then
        let newRows := newCodes.enum.map (fun p =>
          ({ id := db.codes.length + 1 + p.1, code := p.2, teamLeaderId := tlid
           , campaignId := cid, used := false, usedAt := none } : Code))
        ((okResp, some newCodes), { db with codes := db.codes ++ newRows })
      else
        ((errResp 500 "DB error generating codes.", none), db)

/-- Translation of POST /api/admin/delete-feedback of variant 1
(src/server.js lines 555-570): one DELETE on feedback; the codes table
is not touched. -/
def deleteFeedbackV1 (db : DBV1) (campaignId teamLeaderId : Option String) :
    Resp × DBV1 :=
  let cid := safeText campaignId
  let tlid := safeText teamLeaderId
  if cid == "" || tlid == "" then
    (errResp 400 "campaignId and teamLeaderId required", db)
  else
    (okResp,
      { db with feedback := db.feedback.filter (fun f =>
          ¬ (f.campaignId == cid && f.teamLeaderId == tlid)) })

/-! ## Variant 1: aggregation and the comment gate -/

/-- The comments object built by GET /api/admin/detail of variant 1
(src/server.js lines 523-526): per field, the trimmed texts of all
rows with the empty ones filtered out (the filter(Boolean)). -/
structure Comments where
  strengths : List String
  devs : List String
  others : List String
deriving DecidableEq, Repr

/-- Collect the three comment lists as the detail and ai-summary
handlers of variant 1 do (safeText then filter(Boolean)). -/
def commentTexts (rows : List FeedbackV1) : Comments :=
  { strengths := (rows.map (fun r => safeText (some r.strengthsText))).filter (fun s => ¬ (s == ""))
  , devs := (rows.map (fun r => safeText (some r.devText))).filter (fun s => ¬ (s == ""))
  , others := (rows.map (fun r => safeText (some r.otherText))).filter (fun s => ¬ (s == "")) }

/-- Translation of the comment gate of GET /api/admin/detail of
variant 1 (src/server.js lines 521-527): null below the threshold,
the collected texts at or above it. -/
def detailCommentsV1 (rows : List FeedbackV1) : Option Comments :=
  if MIN_COMMENTS_FOR_DISPLAY ≤ rows.length then some (commentTexts rows) else none

/-- Result of GET /api/admin/ai-summary of variant 1: AI not
configured, the below-threshold placeholder (the same message in all
three payload fields), or the comment lists handed to the external
text-generation adapter. -/
inductive AiSummaryV1Result where
  | notConfigured (msg : String)
  | withheld (msg : String)
  | generated (comments : Comments)
deriving DecidableEq, Repr

/-- Translation of GET /api/admin/ai-summary of variant 1
(src/server.js lines 652-705) up to the opaque AI call: the gate at
MIN_COMMENTS_FOR_DISPLAY (lines 676-683) answers with a placeholder
message, otherwise the filtered comment lists feed the adapter. -/
def aiSummaryV1 (openaiConfigured : Bool) (rows : List FeedbackV1) : AiSummaryV1Result :=
  if ¬ openaiConfigured then
    .notConfigured "AI is not configured on the server (missing OPENAI_API_KEY or openai package)."
  else if rows.length < MIN_COMMENTS_FOR_DISPLAY then
    .withheld "AI summary hidden until 3+ responses to protect anonymity."
  else
    .generated (commentTexts rows)

/-- All (question id, finite numeric value) pairs over the score maps
of the given rows, as walked by the sums/counts loops of detail and
compare (src/server.js lines 503-511 and 746-755). -/
def qEntries (rows : List FeedbackV1) : List (String × ℚ) :=
  ((rows.map (fun r => r.scores)).flatten).filterMap (fun p =>
    (toNumber p.2).map (fun q => (p.1, q)))

/-- The questionAverages object: for each question id that occurs with
a finite value, the sum of its values divided by their count
(src/server.js lines 514-517 and 757-760). -/
def questionAveragesOf (rows : List FeedbackV1) : List (String × ℚ) :=
  let entries := qEntries rows
  let keys := (entries.map Prod.fst).dedup
  keys.map (fun q =>
    let vs := (entries.filter (fun p => p.1 == q)).map Prod.snd
    (q, vs.sum / vs.length))

/-- The per-cycle aggregate computed by getAgg inside
GET /api/admin/compare (src/server.js lines 721-766). -/
structure Agg where
  responseCount : Nat
  avgOverall : Option ℚ
  categoryAverages : List (String × Option ℚ)
deriving DecidableEq, Repr

/-- Translation of getAgg (src/server.js lines 721-766): early return
with empty averages when the cycle has no rows for the pair, otherwise
mean overall plus per-question and per-category averages. -/
def getAgg (rows : List FeedbackV1) : Agg :=
  if rows.isEmpty then
    { responseCount := 0
    , avgOverall := none
    , categoryAverages := computeCategoryAverages [] }
  else
    { responseCount := rows.length
    , avgOverall := some ((rows.map (fun r => r.overall)).sum / rows.length)
    , categoryAverages := computeCategoryAverages (questionAveragesOf rows) }

/-- JS property access on a categoryAverages object: an absent key
reads as undefined, which the null test of the delta code treats like
null. -/
def catValue (l : List (String × Option ℚ)) (cat : String) : Option ℚ :=
  match l.lookup cat with
  | some v => v
  | none => none

/-- Translation of the per-category delta loop of GET /api/admin/compare
(src/server.js lines 771-776): null when either side is null, else
to-value minus from-value. -/
def compareDeltas (fromAgg toAgg : Agg) : List (String × Option ℚ) :=
  QUESTION_GROUPS.map (fun g =>
    (g.1,
      match catValue fromAgg.categoryAverages g.1, catValue toAgg.categoryAverages g.1 with
      | some a, some b => some (b - a)
      | some _, none => none
      | none, _ => none))

/-- Translation of overallDelta (src/server.js lines 777-778). -/
def compareOverallDelta (fromAgg toAgg : Agg) : Option ℚ :=
  match fromAgg.avgOverall, toAgg.avgOverall with
  | some a, some b => some (b - a)
  | some _, none => none
  | none, _ => none

/-! ## Variant 2 (lines 843-1502) -/

/-- A row of the feedback table of variant 2: it references the code
it was submitted with, carries the fifteen question columns q2..q16 as
inserted from the request (absent model none), a nullable overall
score and nullable texts. -/
structure FeedbackV2 where
  code : String
  campaignId : String
  teamLeaderId : String
  qcols : List (Option RVal)
  overall : Option ℚ
  strengthsText : Option String
  devText : Option String
  otherText : Option String
deriving DecidableEq, Repr

/-- The persistent state of variant 2. -/
structure DBV2 where
  campaigns : List (String × String)
  teamLeaders : List (String × Bool)
  codes : List Code
  feedback : List FeedbackV2
deriving DecidableEq, Repr

/-- Translation of POST /api/start-session of variant 2
(src/server.js lines 1018-1055): lookup of the trimmed code joined
with its campaign, no normalization of case; SELECT only, so the
state component is returned unchanged in every branch. -/
def startSessionV2 (db : DBV2) (rawCode : Option String) : Resp × DBV2 :=
  if falsyStr rawCode then (errResp 400 "Code is required.", db)
  else
    let q := jsTrim (rawCode.getD "")
    match db.codes.find? (fun c =>
        c.code == q && (db.campaigns.lookup c.campaignId).isSome) with
    | none => (errResp 400 "Code not found.", db)
    | some row =>
      if row.used then (errResp 400 "This code has already been used.", db)
      else (okResp, db)

/-- Translation of calcOverallScore (src/server.js lines 964-971):
Number coercion, drop NaN, null when nothing remains, else the mean. -/
def calcOverallScore (scores : List (String × RVal)) : Option ℚ :=
  let nums := (scores.map Prod.snd).filterMap toNumber
  if nums.isEmpty then none else some (nums.sum / nums.length)

/-- The question columns variant 2 extracts from the scores object
(src/server.js lines 1111-1125). -/
def qKeysV2 : List String :=
  ["q2", "q3", "q4", "q5", "q6", "q7", "q8", "q9", "q10", "q11", "q12", "q13", "q14", "q15", "q16"]

/-- The JS expression (x || null) on an optional text field: absent or
empty becomes null. -/
def orNull (o : Option String) : Option String :=
  match o with
  | some s => if s == "" then none else some s
  | none => none

/-- Input of POST /api/submit-feedback of variant 2 (the destructured
body; scores defaults to the empty object). -/
structure SubmitInV2 where
  code : Option String
  campaignId : Option String
  teamLeaderId : Option String
  scores : List (String × RVal)
  strengthsText : Option String
  devText : Option String
  otherText : Option String
deriving DecidableEq, Repr

/-- The UPDATE marking a code used in variant 2, keyed by the token
text (src/server.js lines 1134-1137). -/
def markUsedByCode (now : Nat) (codeStr : String) (codes : List Code) : List Code :=
  codes.map (fun c =>
    if c.code == codeStr then { c with used := true, usedAt := some now } else c)

/-- Translation of POST /api/submit-feedback of variant 2
(src/server.js lines 1059-1146): field presence check, overall score,
code existence and used check (without a row lock), then the
transaction inserting the feedback row and marking the code used. -/
def submitFeedbackV2 (db : DBV2) (now : Nat) (inp : SubmitInV2) : Resp × DBV2 :=
  if falsyStr inp.code || falsyStr inp.campaignId || falsyStr inp.teamLeaderId then
    (errResp 400 "Missing required fields.", db)
  else
    let overall := calcOverallScore inp.scores
    let codeStr := jsTrim (inp.code.getD "")
    match db.codes.find? (fun c => c.code == codeStr) with
    | none => (errResp 400 "Invalid code.", db)
    | some c =>
      if c.used then (errResp 400 "Code already used.", db)
      else
        (okResp,
          { db with
            feedback := db.feedback ++
              [{ code := codeStr
               , campaignId := inp.campaignId.getD ""
               , teamLeaderId := inp.teamLeaderId.getD ""
               , qcols := qKeysV2.map (fun k => inp.scores.lookup k)
               , overall := overall
               , strengthsText := orNull inp.strengthsText
               , devText := orNull inp.devText
               , otherText := orNull inp.otherText }]
            , codes := markUsedByCode now codeStr db.codes })

/-- Phase split of POST /api/submit-feedback of variant 2, part one
(src/server.js lines 1059-1087): the field presence check and the
used-check SELECT.  This statement runs on the pool BEFORE the BEGIN
of the transaction and takes no row lock, so between it and the
transaction of the same request other statements can run.  Returns
the error response when the request stops here, none when it proceeds
to the transaction. -/
def submitV2Check (db : DBV2) (inp : SubmitInV2) : Option Resp :=
  if falsyStr inp.code || falsyStr inp.campaignId || falsyStr inp.teamLeaderId then
    some (errResp 400 "Missing required fields.")
  else
    match db.codes.find? (fun c => c.code == jsTrim (inp.code.getD "")) with
    | none => some (errResp 400 "Invalid code.")
    | some c => if c.used then some (errResp 400 "Code already used.") else none

/-- Phase split of POST /api/submit-feedback of variant 2, part two
(src/server.js lines 1089-1139): the transaction, atomic as a unit,
inserting the feedback row and marking the code used. -/
def submitV2Commit (db : DBV2) (now : Nat) (inp : SubmitInV2) : DBV2 :=
  let codeStr := jsTrim (inp.code.getD "")
  { db with
    feedback := db.feedback ++
      [{ code := codeStr
       , campaignId := inp.campaignId.getD ""
       , teamLeaderId := inp.teamLeaderId.getD ""
       , qcols := qKeysV2.map (fun k => inp.scores.lookup k)
       , overall := calcOverallScore inp.scores
       , strengthsText := orNull inp.strengthsText
       , devText := orNull inp.devText
       , otherText := orNull inp.otherText }]
    , codes := markUsedByCode now codeStr db.codes }

/-- The inner while loop of the code generator of variant 2: draw
candidates from the stream until one is absent from the table (a
colliding draw raises a unique violation, is caught, and triggers a
retry); none when the stream is exhausted, modelling a loop that never
returns. -/
def pickFresh (existing : List String) : List String → Option (String × List String)
  | [] => none
  | c :: rest =>
    if existing.contains c then pickFresh existing rest else some (c, rest)

/-- The for loop of POST /api/admin/generate-codes of variant 2
(src/server.js lines 1249-1268): n successful inserts, each preceded
by as many discarded colliding draws as needed; the table grows by
each inserted token, so later draws also collide with earlier inserts
of the same batch. -/
def genLoopV2 (existing : List String) (stream : List String) : Nat → Option (List String)
  | 0 => some []
  | Nat.succ n =>
    match pickFresh existing stream with
    | none => none
    | some (c, rest) =>
      match genLoopV2 (c :: existing) rest n with
      | none => none
      | some cs => some (c :: cs)

/-- Translation of POST /api/admin/generate-codes of variant 2
(src/server.js lines 1238-1277): falsy-field check, count clamped to
1..500, then the retry loop; none models the handler never responding
because the loop retries forever. -/
def generateCodesV2 (db : DBV2) (campaignId teamLeaderId : Option String)
    (count : Option ℚ) (stream : List String) :
    Option ((Resp × Option (List String)) × DBV2) :=
  if falsyStr campaignId || falsyStr teamLeaderId || count.getD 0 == 0 then
    some ((errResp 400 "Missing fields.", none), db)
  else
    let n : ℚ := max 1 (min (count.getD 1) 500)
    match genLoopV2 (db.codes.map (fun c => c.code)) stream ⌈n⌉₊ with
    | none => none
    | some codes =>
      let newRows := codes.enum.map (fun p =>
        ({ id := db.codes.length + 1 + p.1, code := p.2
         , teamLeaderId := jsTrim (teamLeaderId.getD "")
         , campaignId := jsTrim (campaignId.getD "")
         , used := false, usedAt := none } : Code))
      some ((okResp, some codes), { db with codes := db.codes ++ newRows })

/-- Translation of POST /api/admin/delete-feedback of variant 2
(src/server.js lines 1451-1489): delete the feedback rows of the pair
RETURNING their code values, then reset exactly those codes to
used = false, used_at = null, in one transaction. -/
def deleteFeedbackV2 (db : DBV2) (campaignId teamLeaderId : Option String) :
    Resp × DBV2 :=
  if falsyStr campaignId || falsyStr teamLeaderId then
    (errResp 400 "campaignId and teamLeaderId required.", db)
  else
    let cid := campaignId.getD ""
    let tlid := teamLeaderId.getD ""
    let deleted := db.feedback.filter (fun f =>
      f.campaignId == cid && f.teamLeaderId == tlid)
    let toReset := deleted.map (fun f => f.code)
    (okResp,
      { db with
        feedback := db.feedback.filter (fun f =>
          ¬ (f.campaignId == cid && f.teamLeaderId == tlid))
        , codes := db.codes.map (fun c =>
            if toReset.contains c.code then { c with used := false, usedAt := none } else c) })

/-! ## Helper lemmas -/

/-- A successful association-list lookup pins down a member pair. -/
theorem lookup_mem {α β : Type} [BEq α] [LawfulBEq α] {l : List (α × β)} {a : α} {b : β}
    (h : l.lookup a = some b) : (a, b) ∈ l := by
  induction l with
  | nil => simp [List.lookup] at h
  | cons p rest ih =>
    obtain ⟨x, y⟩ := p
    rw [List.lookup] at h
    by_cases hab : (a == x)
    · have ha : a = x := by simpa using hab
      rw [hab] at h
      simp at h
      subst ha
      subst h
      exact List.mem_cons_self _ _
    · have hf : (a == x) = false := by simpa using hab
      simp [hf] at h
      exact List.mem_cons_of_mem _ (ih h)

/-- Case analysis of a variant 1 submission: either it fails with a
non-200 status and leaves the state untouched (ROLLBACK or validation
before the transaction), or it succeeds, in which case the token
verified, the referenced code row existed and was unused, and the new
state appends exactly one feedback row and marks exactly that code
used. -/
theorem submitV1_cases (db : DBV1) (now : Nat) (inp : SubmitInV1) :
    ((submitFeedbackV1 db now inp).1.status ≠ 200 ∧ (submitFeedbackV1 db now inp).2 = db) ∨
    (∃ p scores c overall,
      inp.sessionToken = some (some p) ∧
      inp.scores = some scores ∧
      db.codes.find? (fun k => k.id == p.codeId) = some c ∧
      c.used = false ∧
      overallOfScores scores = some overall ∧
      submitFeedbackV1 db now inp = (okResp,
        { db with
          feedback := db.feedback ++
            [{ campaignId := p.campaignId
             , teamLeaderId := p.teamLeaderId
             , scores := scores
             , overall := overall
             , strengthsText := safeText inp.strengthsText
             , devText := safeText inp.devText
             , otherText := safeText inp.otherText }]
          , codes := markUsed now p.codeId db.codes })) := by
  simp only [submitFeedbackV1]
  split
  · exact Or.inl ⟨by simp [errResp], rfl⟩
  · split
    · exact Or.inl ⟨by simp [errResp], rfl⟩
    · split
      · exact Or.inl ⟨by simp [errResp], rfl⟩
      · split
        · exact Or.inl ⟨by simp [errResp], rfl⟩
        · split
          · exact Or.inl ⟨by simp [errResp], rfl⟩
          · split
            · exact Or.inl ⟨by simp [errResp], rfl⟩
            · split
              · exact Or.inl ⟨by simp [errResp], rfl⟩
              · split
                · exact Or.inl ⟨by simp [errResp], rfl⟩
                · rename_i u1 u2 scoresL hscoresEq htxts u3 p hpEq hfieldsOk u4 overall hoverallEq u5 c hfind hused
                  exact Or.inr ⟨p, scoresL, c, overall, hpEq, hscoresEq, hfind,
                    by simpa using hused, hoverallEq, rfl⟩

/-- A variant 2 submission with present fields whose code row exists
and is unused succeeds and appends exactly the row the INSERT builds,
marking the code used. -/
theorem submitV2_ok (db : DBV2) (now : Nat) (inp : SubmitInV2) (c : Code)
    (h1 : falsyStr inp.code = false) (h2 : falsyStr inp.campaignId = false)
    (h3 : falsyStr inp.teamLeaderId = false)
    (hfind : db.codes.find? (fun k => k.code == jsTrim (inp.code.getD "")) = some c)
    (hused : c.used = false) :
    submitFeedbackV2 db now inp = (okResp,
      { db with
        feedback := db.feedback ++
          [{ code := jsTrim (inp.code.getD "")
           , campaignId := inp.campaignId.getD ""
           , teamLeaderId := inp.teamLeaderId.getD ""
           , qcols := qKeysV2.map (fun k => inp.scores.lookup k)
           , overall := calcOverallScore inp.scores
           , strengthsText := orNull inp.strengthsText
           , devText := orNull inp.devText
           , otherText := orNull inp.otherText }]
        , codes := markUsedByCode now (jsTrim (inp.code.getD "")) db.codes }) := by
  simp only [submitFeedbackV2, h1, h2, h3, hfind, hused]
  simp

/-- The UPDATE keyed by id commutes with the row lookup keyed by any
id: looking up after the update returns the updated row. -/
theorem find?_markUsed (codes : List Code) (now d cid : Nat) :
    (markUsed now d codes).find? (fun k => k.id == cid)
      = (codes.find? (fun k => k.id == cid)).map
          (fun k => if k.id == d then { k with used := true, usedAt := some now } else k) := by
  induction codes with
  | nil => rfl
  | cons a l ih =>
    by_cases h : (a.id == cid) = true
    · have hupd : ((if a.id == d then { a with used := true, usedAt := some now } else a).id
          == cid) = true := by
        split <;> exact h
      simp only [markUsed, List.map_cons, List.find?_cons, hupd, h]
      rfl
    · have hf : (a.id == cid) = false := by simpa using h
      have hupd : ((if a.id == d then { a with used := true, usedAt := some now } else a).id
          == cid) = false := by
        split <;> exact hf
      simp only [markUsed, List.map_cons, List.find?_cons, hupd, hf]
      exact ih

/-- A submission that does not answer 200 leaves the state unchanged
(validation rejection or transaction rollback). -/
theorem submitV1_frame (db : DBV1) (now : Nat) (inp : SubmitInV1)
    (h : (submitFeedbackV1 db now inp).1.status ≠ 200) :
    (submitFeedbackV1 db now inp).2 = db := by
  rcases submitV1_cases db now inp with ⟨_, h2⟩ | ⟨p, s, c, ov, _, _, _, _, _, heq⟩
  · exact h2
  · rw [heq] at h
    exact absurd rfl h

/-- Shape of a successful submission: the verified payload references
an unused code row, the codes table afterwards is the markUsed update,
and the feedback table grows by one row. -/
theorem submitV1_ok_shape (db : DBV1) (now : Nat) (inp : SubmitInV1)
    (hok : (submitFeedbackV1 db now inp).1.status = 200) :
    ∃ p c, inp.sessionToken = some (some p) ∧ reqCodeId inp = some p.codeId ∧
      db.codes.find? (fun k => k.id == p.codeId) = some c ∧ c.used = false ∧
      (c.id == p.codeId) = true ∧
      (submitFeedbackV1 db now inp).2.codes = markUsed now p.codeId db.codes ∧
      (submitFeedbackV1 db now inp).2.feedback.length = db.feedback.length + 1 := by
  rcases submitV1_cases db now inp with ⟨hne, _⟩ |
    ⟨p, scores, c, overall, htok, hsc, hfind, hused, hov, heq⟩
  · exact absurd hok hne
  · refine ⟨p, c, htok, ?_, hfind, hused, ?_, ?_, ?_⟩
    · simp [reqCodeId, htok]
    · have h0 := List.find?_some hfind
      exact h0
    · rw [heq]
    · rw [heq]
      simp

/-- A used code row stays used across any submission, and no
submission referencing it can answer 200. -/
theorem submitV1_preserves_used (db : DBV1) (now : Nat) (inp : SubmitInV1) (cid : Nat)
    (c : Code) (hfind : db.codes.find? (fun k => k.id == cid) = some c)
    (hused : c.used = true) :
    (∃ c2, (submitFeedbackV1 db now inp).2.codes.find? (fun k => k.id == cid) = some c2 ∧
      c2.used = true) ∧
    ¬ ((submitFeedbackV1 db now inp).1.status = 200 ∧ reqCodeId inp = some cid) := by
  rcases submitV1_cases db now inp with ⟨hne, h2⟩ |
    ⟨p, s, c0, ov, htok, hsc, hfind0, hunused, hov, heq⟩
  · refine ⟨⟨c, by rw [h2]; exact hfind, hused⟩, ?_⟩
    rintro ⟨hok, -⟩
    exact hne hok
  · have hpcid : p.codeId ≠ cid := by
      intro hEq
      rw [hEq] at hfind0
      rw [hfind0] at hfind
      injection hfind with hc
      rw [hc, hused] at hunused
      exact Bool.noConfusion hunused
    constructor
    · refine ⟨if c.id == p.codeId then { c with used := true, usedAt := some now } else c,
        ?_, ?_⟩
      · rw [heq]
        show (markUsed now p.codeId db.codes).find? (fun k => k.id == cid) = _
        rw [find?_markUsed, hfind]
        rfl
      · split
        · rfl
        · exact hused
    · rintro ⟨hok, hreq⟩
      have hr : reqCodeId inp = some p.codeId := by simp [reqCodeId, htok]
      rw [hr] at hreq
      injection hreq with h'
      exact hpcid h'

/-- An unused code row not consumed by a submission is unchanged by
it. -/
theorem submitV1_preserves_unused (db : DBV1) (now : Nat) (inp : SubmitInV1) (cid : Nat)
    (c : Code) (hfind : db.codes.find? (fun k => k.id == cid) = some c)
    (hnot : ¬ ((submitFeedbackV1 db now inp).1.status = 200 ∧ reqCodeId inp = some cid)) :
    (submitFeedbackV1 db now inp).2.codes.find? (fun k => k.id == cid) = some c := by
  rcases submitV1_cases db now inp with ⟨hne, h2⟩ |
    ⟨p, s, c0, ov, htok, hsc, hfind0, hunused, hov, heq⟩
  · rw [h2]
    exact hfind
  · have hok : (submitFeedbackV1 db now inp).1.status = 200 := by
      rw [heq]
      rfl
    have hr : reqCodeId inp = some p.codeId := by simp [reqCodeId, htok]
    have hpcid : p.codeId ≠ cid := by
      intro hEq
      exact hnot ⟨hok, by rw [hr, hEq]⟩
    have hcid := List.find?_some hfind
    have hcid2 : c.id = cid := by simpa using hcid
    have hne2 : (c.id == p.codeId) = false := by
      simp [hcid2]
      intro hEq
      exact hpcid hEq.symm
    rw [heq]
    show (markUsed now p.codeId db.codes).find? (fun k => k.id == cid) = _
    rw [find?_markUsed, hfind]
    show some (if c.id == p.codeId then { c with used := true, usedAt := some now } else c)
      = some c
    rw [hne2]
    simp

/-- Once a code is used, no later submission of the trace consumes it
again, and it stays used. -/
theorem runSubmitsV1_used :
    ∀ (reqs : List SubmitInV1) (db : DBV1) (now cid : Nat) (c : Code),
      db.codes.find? (fun k => k.id == cid) = some c → c.used = true →
      okCountFor db now cid reqs = 0 ∧
      ∃ c2, (runSubmitsV1 db now reqs).codes.find? (fun k => k.id == cid) = some c2 ∧
        c2.used = true := by
  intro reqs
  induction reqs with
  | nil =>
    intro db now cid c hf hu
    exact ⟨rfl, c, hf, hu⟩
  | cons r rs ih =>
    intro db now cid c hf hu
    obtain ⟨⟨c2, hf2, hu2⟩, hnot⟩ := submitV1_preserves_used db now r cid c hf hu
    obtain ⟨hcount, hex⟩ := ih (submitFeedbackV1 db now r).2 now cid c2 hf2 hu2
    constructor
    · simp only [okCountFor, hcount]
      rw [if_neg hnot]
    · simpa only [runSubmitsV1] using hex

/-- The per-code trace invariant: starting from an unused code, a
trace of submissions contains at most one persisted consumption, and
the code ends used exactly when that consumption happened. -/
theorem runSubmitsV1_once :
    ∀ (reqs : List SubmitInV1) (db : DBV1) (now cid : Nat) (c : Code),
      db.codes.find? (fun k => k.id == cid) = some c → c.used = false →
      okCountFor db now cid reqs ≤ 1 ∧
      ((∃ c2, (runSubmitsV1 db now reqs).codes.find? (fun k => k.id == cid) = some c2 ∧
          c2.used = true) ↔ okCountFor db now cid reqs = 1) := by
  intro reqs
  induction reqs with
  | nil =>
    intro db now cid c hf hu
    refine ⟨by norm_num [okCountFor], ?_⟩
    constructor
    · rintro ⟨c2, hf2, hu2⟩
      exfalso
      simp only [runSubmitsV1] at hf2
      rw [hf] at hf2
      injection hf2 with hc
      rw [← hc, hu] at hu2
      exact Bool.noConfusion hu2
    · intro h
      exact absurd h (by norm_num [okCountFor])
  | cons r rs ih =>
    intro db now cid c hf hu
    by_cases htar : ((submitFeedbackV1 db now r).1.status = 200 ∧ reqCodeId r = some cid)
    · obtain ⟨hok, hreq⟩ := htar
      obtain ⟨p, c0, htok, hrq, hfind0, hun0, hpid, hcodes, hflen⟩ :=
        submitV1_ok_shape db now r hok
      have hpc : p.codeId = cid := by
        rw [hrq] at hreq
        injection hreq
      rw [hpc] at hfind0
      have hc0 : c0 = c := by
        rw [hfind0] at hf
        injection hf
      have hfind2 : (submitFeedbackV1 db now r).2.codes.find? (fun k => k.id == cid)
          = some { c with used := true, usedAt := some now } := by
        rw [hcodes, hpc, find?_markUsed, hf]
        have hcc := List.find?_some hf
        have hcc2 : (c.id == cid) = true := hcc
        show some (if c.id == cid then { c with used := true, usedAt := some now } else c) = _
        rw [hcc2]
        simp
      obtain ⟨hrest0, c2, hf2, hu2⟩ := runSubmitsV1_used rs (submitFeedbackV1 db now r).2
        now cid { c with used := true, usedAt := some now } hfind2 rfl
      have hcount : okCountFor db now cid (r :: rs) = 1 := by
        simp only [okCountFor, hrest0]
        rw [if_pos ⟨hok, hreq⟩]
      refine ⟨le_of_eq hcount, ?_, fun _ => ?_⟩
      · intro _
        exact hcount
      · exact ⟨c2, by simpa only [runSubmitsV1] using hf2, hu2⟩
    · have hfind2 : (submitFeedbackV1 db now r).2.codes.find? (fun k => k.id == cid)
          = some c := submitV1_preserves_unused db now r cid c hf htar
      obtain ⟨hle, hiff⟩ := ih (submitFeedbackV1 db now r).2 now cid c hfind2 hu
      have hcount : okCountFor db now cid (r :: rs)
          = okCountFor (submitFeedbackV1 db now r).2 now cid rs := by
        simp only [okCountFor]
        rw [if_neg htar]
        omega
      refine ⟨by rw [hcount]; exact hle, ?_⟩
      rw [hcount]
      simpa only [runSubmitsV1] using hiff

/-- The feedback table grows by exactly the number of successful
submissions of a trace. -/
theorem runSubmitsV1_feedback :
    ∀ (reqs : List SubmitInV1) (db : DBV1) (now : Nat),
      (runSubmitsV1 db now reqs).feedback.length
        = db.feedback.length + okCountAll db now reqs := by
  intro reqs
  induction reqs with
  | nil =>
    intro db now
    simp [runSubmitsV1, okCountAll]
  | cons r rs ih =>
    intro db now
    simp only [runSubmitsV1, okCountAll]
    rw [ih]
    by_cases hok : (submitFeedbackV1 db now r).1.status = 200
    · obtain ⟨p, c, -, -, -, -, -, -, hflen⟩ := submitV1_ok_shape db now r hok
      rw [hflen, if_pos hok]
      omega
    · rw [submitV1_frame db now r hok, if_neg hok]
      omega

/-! ## Claim C8 -/

/-- Claim C8 as stated is false on the code: for the per-question
average mapping q1 to 0 and q2 to 4, both members of the category
Leadership and Management have data, so the claimed category average
is the mean (0 + 4) / 2 = 2 (computed here by specCategoryAverages,
the formalization of the words of the claim), but
computeCategoryAverages ignores the non-positive average 0 and
returns 4. -/
theorem C8_category_average_cex :
    (computeCategoryAverages [("q1", 0), ("q2", 4)]).lookup "Leadership & Management"
      = some (some 4) ∧
    (specCategoryAverages [("q1", 0), ("q2", 4)]).lookup "Leadership & Management"
      = some (some 2) ∧
    (some (some (4 : ℚ)) : Option (Option ℚ)) ≠ some (some 2) := by
  refine ⟨?_, ?_, ?_⟩
  · simp [computeCategoryAverages, QUESTION_GROUPS, List.lookup]
  · simp [specCategoryAverages, QUESTION_GROUPS, List.lookup]
    norm_num
  · simp

/-- Claim C8 (amended): a category average is the arithmetic mean of
the member question averages that are present with a finite, strictly
positive value, ignoring absent and non-positive members, and is null
when no member qualifies.  On mappings whose present values are all
positive (which includes every mapping produced from in-range ratings)
this coincides with the claim as stated, and member averages 4 and 5
with the third member absent give 9 / 2 = 4.5. -/
theorem C8_category_average_amended :
    (∀ qa : List (String × ℚ), (∀ p ∈ qa, 0 < p.2) →
      computeCategoryAverages qa = specCategoryAverages qa) ∧
    (computeCategoryAverages [("q1", 4), ("q2", 5)]).lookup "Leadership & Management"
      = some (some (9 / 2)) := by
  constructor
  · intro qa hpos
    unfold computeCategoryAverages specCategoryAverages
    refine List.map_congr_left ?_
    intro g _
    have hcong : (g.2.filterMap (fun qid =>
        match qa.lookup qid with
        | some v => if 0 < v then some v else none
        | none => none)) = g.2.filterMap (fun qid => qa.lookup qid) := by
      refine List.filterMap_congr ?_
      intro qid _
      cases h : qa.lookup qid with
      | none => simp
      | some v =>
        have hv : 0 < v := hpos (qid, v) (lookup_mem h)
        simp [hv]
    simp only [hcong]
  · simp [computeCategoryAverages, QUESTION_GROUPS, List.lookup]
    norm_num

/-- Witness for C8: the amended theorem applied to the concrete
mapping q1 to 3 and q2 to 4, whose values are all positive. -/
theorem C8_category_average_amended_witness :
    computeCategoryAverages [("q1", 3), ("q2", 4)]
      = specCategoryAverages [("q1", 3), ("q2", 4)] :=
  C8_category_average_amended.1 [("q1", 3), ("q2", 4)] (by
    intro p hp
    simp at hp
    rcases hp with h | h <;> rw [h] <;> norm_num)

/-! ## Claim C7 -/

/-- When every value of a categoryAverages object is null, every
access reads null. -/
theorem catValue_eq_none {l : List (String × Option ℚ)} (h : ∀ p ∈ l, p.2 = none)
    (cat : String) : catValue l cat = none := by
  unfold catValue
  cases hl : l.lookup cat with
  | none => rfl
  | some v => simpa using h (cat, v) (lookup_mem hl)

/-- With no responses, every category average is null. -/
theorem computeCategoryAverages_nil_values :
    ∀ p ∈ computeCategoryAverages [], p.2 = none := by
  intro p hp
  unfold computeCategoryAverages at hp
  simp only [List.mem_map] at hp
  obtain ⟨g, hg, heq⟩ := hp
  subst heq
  simp [List.lookup]

/-- Claim C7: in the cross-cycle comparison, each per-category delta
is the to-value minus the from-value when both sides have data and is
null when either side lacks data, the overall delta behaves the same
way on the overall averages, and when the from cycle has zero
responses every category delta and the overall delta are null. -/
theorem C7_compare_deltas :
    (∀ a1 a2 : Agg, ∀ cat : String, ∀ a b : ℚ, ∀ d : Option ℚ,
      catValue a1.categoryAverages cat = some a →
      catValue a2.categoryAverages cat = some b →
      (cat, d) ∈ compareDeltas a1 a2 → d = some (b - a)) ∧
    (∀ a1 a2 : Agg, ∀ cat : String, ∀ d : Option ℚ,
      (catValue a1.categoryAverages cat = none ∨ catValue a2.categoryAverages cat = none) →
      (cat, d) ∈ compareDeltas a1 a2 → d = none) ∧
    (∀ a1 a2 : Agg, ∀ a b : ℚ, a1.avgOverall = some a → a2.avgOverall = some b →
      compareOverallDelta a1 a2 = some (b - a)) ∧
    (∀ a1 a2 : Agg, (a1.avgOverall = none ∨ a2.avgOverall = none) →
      compareOverallDelta a1 a2 = none) ∧
    (∀ toRows : List FeedbackV1,
      (∀ p ∈ compareDeltas (getAgg []) (getAgg toRows), p.2 = none) ∧
      compareOverallDelta (getAgg []) (getAgg toRows) = none) := by
  have hnull : ∀ a1 a2 : Agg, ∀ cat : String, ∀ d : Option ℚ,
      (catValue a1.categoryAverages cat = none ∨ catValue a2.categoryAverages cat = none) →
      (cat, d) ∈ compareDeltas a1 a2 → d = none := by
    intro a1 a2 cat d hn hm
    unfold compareDeltas at hm
    simp only [List.mem_map] at hm
    obtain ⟨g, hg, heq⟩ := hm
    have hcat : g.1 = cat := congrArg Prod.fst heq
    have hd := congrArg Prod.snd heq
    simp only at hd
    rw [hcat] at hd
    rcases hn with hn | hn
    · rw [hn] at hd
      cases h2 : catValue a2.categoryAverages cat <;> rw [h2] at hd <;> exact hd.symm
    · rw [hn] at hd
      cases h1 : catValue a1.categoryAverages cat <;> rw [h1] at hd <;> exact hd.symm
  have hoverallnull : ∀ a1 a2 : Agg, (a1.avgOverall = none ∨ a2.avgOverall = none) →
      compareOverallDelta a1 a2 = none := by
    intro a1 a2 hn
    unfold compareOverallDelta
    rcases hn with hn | hn
    · rw [hn]
    · rw [hn]
      cases a1.avgOverall <;> rfl
  refine ⟨?_, hnull, ?_, hoverallnull, ?_⟩
  · intro a1 a2 cat a b d h1 h2 hm
    unfold compareDeltas at hm
    simp only [List.mem_map] at hm
    obtain ⟨g, hg, heq⟩ := hm
    have hcat : g.1 = cat := congrArg Prod.fst heq
    have hd := congrArg Prod.snd heq
    simp only at hd
    rw [hcat, h1, h2] at hd
    exact hd.symm
  · intro a1 a2 a b h1 h2
    unfold compareOverallDelta
    rw [h1, h2]
  · intro toRows
    have hempty : (getAgg ([] : List FeedbackV1)).categoryAverages = computeCategoryAverages [] := by
      simp [getAgg]
    have hao : (getAgg ([] : List FeedbackV1)).avgOverall = none := by
      simp [getAgg]
    constructor
    · intro p hp
      have hc : catValue (getAgg ([] : List FeedbackV1)).categoryAverages p.1 = none := by
        rw [hempty]
        exact catValue_eq_none computeCategoryAverages_nil_values p.1
      exact hnull _ _ p.1 p.2 (Or.inl hc) (by simpa using hp)
    · exact hoverallnull _ _ (Or.inl hao)

/-- Witness for C7: comparing the empty from cycle with an empty to
cycle, the Communication delta entry is the pair with value null, and
the overall delta is null, both hypotheses discharged concretely. -/
theorem C7_compare_deltas_witness :
    ("Communication", (none : Option ℚ)) ∈
        compareDeltas (getAgg ([] : List FeedbackV1)) (getAgg []) ∧
    (none : Option ℚ) = none ∧
    compareOverallDelta (getAgg ([] : List FeedbackV1)) (getAgg []) = none := by
  have hmem : ("Communication", (none : Option ℚ)) ∈
      compareDeltas (getAgg ([] : List FeedbackV1)) (getAgg []) := by
    simp [compareDeltas, getAgg, computeCategoryAverages, catValue, QUESTION_GROUPS, List.lookup]
  refine ⟨hmem, ?_, ?_⟩
  · exact C7_compare_deltas.2.1 (getAgg []) (getAgg []) "Communication" none
      (Or.inl (by
        have h1 : (getAgg ([] : List FeedbackV1)).categoryAverages
            = computeCategoryAverages [] := by simp [getAgg]
        rw [h1]
        exact catValue_eq_none computeCategoryAverages_nil_values _)) hmem
  · exact C7_compare_deltas.2.2.2.1 (getAgg []) (getAgg []) (Or.inl (by simp [getAgg]))

/-! ## Claim C2 -/

/-- Claim C2 as stated is false on the code, in both variants.
Variant 1: the rating 7 is numeric but out of the valid range 1 to 5,
the claim therefore demands the stored overall 3 (the mean over only
the in-range value 3, computed here by specOverallScore, the
formalization of the words of the claim), yet a successful submission
of the mapping q1 = 7, q2 = 3 stores the unfiltered mean 5: the code
never range-checks ratings.  Variant 2 (calcOverallScore, cited lines
964-971): a mapping with no valid value at all is not rejected; the
submission succeeds and persists a feedback row whose overall is
null. -/
theorem C2_overall_score_cex :
    ((submitFeedbackV1
      { campaigns := [("c1", "Cycle 1")]
      , teamLeaders := [("Gill", true)]
      , codes := [{ id := 1, code := "AAAA-BBBB", teamLeaderId := "Gill"
                  , campaignId := "c1", used := false, usedAt := none }]
      , feedback := [] } 0
      { sessionToken := some (some { codeId := 1, campaignId := "c1", teamLeaderId := "Gill" })
      , scores := some [("q1", RVal.num 7), ("q2", RVal.num 3)]
      , strengthsText := some "s", devText := some "d"
      , otherText := some "o" }).2.feedback.map (fun f => f.overall)) = [5] ∧
    specOverallScore [("q1", RVal.num 7), ("q2", RVal.num 3)] = some 3 ∧
    (5 : ℚ) ≠ 3 ∧
    calcOverallScore [("q2", RVal.undef)] = none ∧
    (submitFeedbackV2
      { campaigns := [("c1", "C")], teamLeaders := [("G", true)]
      , codes := [{ id := 1, code := "AB", teamLeaderId := "G", campaignId := "c1"
                  , used := false, usedAt := none }]
      , feedback := [] } 0
      { code := some "AB", campaignId := some "c1", teamLeaderId := some "G"
      , scores := [("q2", RVal.undef)]
      , strengthsText := none, devText := none, otherText := none }).1 = okResp ∧
    (submitFeedbackV2
      { campaigns := [("c1", "C")], teamLeaders := [("G", true)]
      , codes := [{ id := 1, code := "AB", teamLeaderId := "G", campaignId := "c1"
                  , used := false, usedAt := none }]
      , feedback := [] } 0
      { code := some "AB", campaignId := some "c1", teamLeaderId := some "G"
      , scores := [("q2", RVal.undef)]
      , strengthsText := none, devText := none, otherText := none }).2.feedback.map
        (fun f => f.overall) = [none] := by
  refine ⟨?_, ?_, by norm_num, by decide, by decide, by decide⟩
  · have h1 : jsTrim "s" = "s" := by decide
    have h2 : jsTrim "d" = "d" := by decide
    have h3 : jsTrim "o" = "o" := by decide
    have n1 : "s" ≠ "" := by decide
    have n2 : "d" ≠ "" := by decide
    have n3 : "o" ≠ "" := by decide
    have n4 : "c1" ≠ "" := by decide
    have n5 : "Gill" ≠ "" := by decide
    norm_num [submitFeedbackV1, overallOfScores, toNumber, safeText, markUsed,
      okResp, errResp, List.find?, h1, h2, h3, n1, n2, n3, n4, n5]
    simp [toNumber]
    norm_num
  · have hf : (([("q1", RVal.num 7), ("q2", RVal.num 3)].map Prod.snd).filterMap
        toNumber).filter (fun v => decide (1 ≤ v ∧ v ≤ 5)) = [3] := by decide
    simp only [specOverallScore, hf]
    norm_num

/-- Claim C2 (amended): the stored overall score is the arithmetic
mean of all supplied rating values that coerce to a finite number,
with no range restriction (so out-of-range numbers count, and null
counts as 0); variant 1 rejects the submission, writing nothing, when
no value is numeric; the mapping q1 = 5, q2 = 3, q3 = 4 yields
exactly 4.0, where the source computation and the specification
formula agree because all three values are in range; variant 2
computes the same unfiltered mean with calcOverallScore and, instead
of rejecting, stores whatever it yields, null included, in the
persisted row. -/
theorem C2_overall_score_amended :
    (∀ (db : DBV1) (now : Nat) (inp : SubmitInV1) (p : SessionPayload)
       (scores : List (String × RVal)),
      inp.sessionToken = some (some p) →
      inp.scores = some scores →
      ((safeText inp.strengthsText == "") || (safeText inp.devText == "")
        || (safeText inp.otherText == "")) = false →
      ((p.codeId == 0) || (p.campaignId == "") || (p.teamLeaderId == "")) = false →
      overallOfScores scores = none →
      submitFeedbackV1 db now inp = (errResp 400 "Scores incomplete.", db)) ∧
    (∀ (db : DBV1) (now : Nat) (inp : SubmitInV1),
      (submitFeedbackV1 db now inp).1.status = 200 →
      ∃ f : FeedbackV1, (submitFeedbackV1 db now inp).2.feedback = db.feedback ++ [f] ∧
        overallOfScores f.scores = some f.overall) ∧
    (overallOfScores [("q1", RVal.num 5), ("q2", RVal.num 3), ("q3", RVal.num 4)] = some 4 ∧
     specOverallScore [("q1", RVal.num 5), ("q2", RVal.num 3), ("q3", RVal.num 4)] = some 4) ∧
    (∀ scores : List (String × RVal), calcOverallScore scores = overallOfScores scores) ∧
    (∀ (db : DBV2) (now : Nat) (inp : SubmitInV2) (c : Code),
      falsyStr inp.code = false → falsyStr inp.campaignId = false →
      falsyStr inp.teamLeaderId = false →
      db.codes.find? (fun k => k.code == jsTrim (inp.code.getD "")) = some c →
      c.used = false →
      (submitFeedbackV2 db now inp).1 = okResp ∧
      (submitFeedbackV2 db now inp).2.feedback.map (fun f => f.overall)
        = db.feedback.map (fun f => f.overall) ++ [calcOverallScore inp.scores]) := by
  refine ⟨?_, ?_, ⟨?_, ?_⟩, fun scores => rfl, ?_⟩
  · intro db now inp p scores h1 h2 h3 h4 h5
    simp only [submitFeedbackV1, h1, h2, h3, h4, h5]
    simp
  · intro db now inp hok
    rcases submitV1_cases db now inp with ⟨hne, _⟩ | ⟨p, scores, c, overall, _, _, _, _, hov, heq⟩
    · exact absurd hok hne
    · refine ⟨{ campaignId := p.campaignId, teamLeaderId := p.teamLeaderId, scores := scores
              , overall := overall, strengthsText := safeText inp.strengthsText
              , devText := safeText inp.devText, otherText := safeText inp.otherText }, ?_, ?_⟩
      · rw [heq]
      · exact hov
  · have hv : ([("q1", RVal.num 5), ("q2", RVal.num 3), ("q3", RVal.num 4)].map
        Prod.snd).filterMap toNumber = [5, 3, 4] := by decide
    simp only [overallOfScores, hv]
    norm_num
  · have hf : (([("q1", RVal.num 5), ("q2", RVal.num 3), ("q3", RVal.num 4)].map
        Prod.snd).filterMap toNumber).filter (fun v => decide (1 ≤ v ∧ v ≤ 5)) = [5, 3, 4] := by
      decide
    simp only [specOverallScore, hf]
    norm_num
  · intro db now inp c h1 h2 h3 hfind hused
    rw [submitV2_ok db now inp c h1 h2 h3 hfind hused]
    simp

/-- Witness for C2: the rejection clause of the amended theorem
applied to a concrete submission whose single rating is undefined; the
handler answers Scores incomplete and leaves the state unchanged. -/
theorem C2_overall_score_amended_witness :
    submitFeedbackV1
      { campaigns := [], teamLeaders := [], codes := [], feedback := [] } 0
      { sessionToken := some (some { codeId := 1, campaignId := "c1", teamLeaderId := "Gill" })
      , scores := some [("q1", RVal.undef)]
      , strengthsText := some "s", devText := some "d", otherText := some "o" }
      = (errResp 400 "Scores incomplete.",
         { campaigns := [], teamLeaders := [], codes := [], feedback := [] }) :=
  C2_overall_score_amended.1 _ 0 _
    { codeId := 1, campaignId := "c1", teamLeaderId := "Gill" } [("q1", RVal.undef)]
    rfl rfl (by decide) (by decide) (by decide)

/-! ## Claim C4 -/

/-- Claim C4: the detail payload carries the free-text comments iff
the response count of the (campaign, team leader) pair is at least the
threshold 3; with exactly 2 responses the comments field is null and
the ai-summary path answers with the placeholder message instead of a
summary; with exactly 3 responses the comments field holds exactly the
non-empty strengths, development and other texts of the 3 responses
(stated for rows whose stored texts carry no surrounding whitespace,
which holds for every row variant 1 itself stores, since submission
trims them). -/
theorem C4_comment_gate :
    (∀ rows : List FeedbackV1,
      (detailCommentsV1 rows).isSome ↔ MIN_COMMENTS_FOR_DISPLAY ≤ rows.length) ∧
    (∀ rows : List FeedbackV1, rows.length = 2 →
      detailCommentsV1 rows = none ∧
      aiSummaryV1 true rows
        = .withheld "AI summary hidden until 3+ responses to protect anonymity.") ∧
    (∀ rows : List FeedbackV1, rows.length = 3 →
      (∀ r ∈ rows, jsTrim r.strengthsText = r.strengthsText ∧ jsTrim r.devText = r.devText ∧
        jsTrim r.otherText = r.otherText) →
      detailCommentsV1 rows = some
        { strengths := (rows.map (fun r => r.strengthsText)).filter (fun s => ¬ (s == ""))
        , devs := (rows.map (fun r => r.devText)).filter (fun s => ¬ (s == ""))
        , others := (rows.map (fun r => r.otherText)).filter (fun s => ¬ (s == "")) } ∧
      aiSummaryV1 true rows = .generated (commentTexts rows)) := by
  refine ⟨?_, ?_, ?_⟩
  · intro rows
    unfold detailCommentsV1
    split
    · rename_i h
      simp [h]
    · rename_i h
      simp [h]
  · intro rows h2
    constructor
    · unfold detailCommentsV1
      rw [if_neg (by rw [h2]; norm_num [MIN_COMMENTS_FOR_DISPLAY])]
    · unfold aiSummaryV1
      rw [if_neg (by simp), if_pos (by rw [h2]; norm_num [MIN_COMMENTS_FOR_DISPLAY])]
  · intro rows h3 htrim
    have hs : rows.map (fun r => safeText (some r.strengthsText))
        = rows.map (fun r => r.strengthsText) :=
      List.map_congr_left (fun r hr => by simp [safeText, (htrim r hr).1])
    have hd : rows.map (fun r => safeText (some r.devText))
        = rows.map (fun r => r.devText) :=
      List.map_congr_left (fun r hr => by simp [safeText, (htrim r hr).2.1])
    have ho : rows.map (fun r => safeText (some r.otherText))
        = rows.map (fun r => r.otherText) :=
      List.map_congr_left (fun r hr => by simp [safeText, (htrim r hr).2.2])
    have hct : commentTexts rows =
        { strengths := (rows.map (fun r => r.strengthsText)).filter (fun s => ¬ (s == ""))
        , devs := (rows.map (fun r => r.devText)).filter (fun s => ¬ (s == ""))
        , others := (rows.map (fun r => r.otherText)).filter (fun s => ¬ (s == "")) } := by
      unfold commentTexts
      rw [hs, hd, ho]
    constructor
    · unfold detailCommentsV1
      rw [if_pos (by rw [h3]; norm_num [MIN_COMMENTS_FOR_DISPLAY]), hct]
    · unfold aiSummaryV1
      rw [if_neg (by simp), if_neg (by rw [h3]; norm_num [MIN_COMMENTS_FOR_DISPLAY])]

/-- Witness for C4: three concrete responses; the comments field holds
exactly their non-empty texts, and the below-threshold clause fires on
two responses. -/
theorem C4_comment_gate_witness :
    detailCommentsV1
      [{ campaignId := "c1", teamLeaderId := "G", scores := [], overall := 0
       , strengthsText := "a", devText := "b", otherText := "" }
      ,{ campaignId := "c1", teamLeaderId := "G", scores := [], overall := 0
       , strengthsText := "c", devText := "", otherText := "d" }
      ,{ campaignId := "c1", teamLeaderId := "G", scores := [], overall := 0
       , strengthsText := "", devText := "e", otherText := "f" }]
      = some { strengths := ["a", "c"], devs := ["b", "e"], others := ["d", "f"] } ∧
    detailCommentsV1
      [{ campaignId := "c1", teamLeaderId := "G", scores := [], overall := 0
       , strengthsText := "a", devText := "b", otherText := "" }
      ,{ campaignId := "c1", teamLeaderId := "G", scores := [], overall := 0
       , strengthsText := "c", devText := "", otherText := "d" }] = none := by
  constructor
  · have h := (C4_comment_gate.2.2
      [{ campaignId := "c1", teamLeaderId := "G", scores := [], overall := 0
       , strengthsText := "a", devText := "b", otherText := "" }
      ,{ campaignId := "c1", teamLeaderId := "G", scores := [], overall := 0
       , strengthsText := "c", devText := "", otherText := "d" }
      ,{ campaignId := "c1", teamLeaderId := "G", scores := [], overall := 0
       , strengthsText := "", devText := "e", otherText := "f" }] rfl (by decide)).1
    rw [h]
    decide
  · exact (C4_comment_gate.2.1
      [{ campaignId := "c1", teamLeaderId := "G", scores := [], overall := 0
       , strengthsText := "a", devText := "b", otherText := "" }
      ,{ campaignId := "c1", teamLeaderId := "G", scores := [], overall := 0
       , strengthsText := "c", devText := "", otherText := "d" }] rfl).1

/-! ## Claim C5 -/

/-- Claim C5 as stated is false on the code: in variant 2, an unknown
code, an already-used code and a missing code all answer with the same
HTTP status 400, so the not-found and conflict outcomes are not
reported with distinct statuses from each other nor from validation
errors. -/
theorem C5_session_errors_cex :
    (startSessionV2
      { campaigns := [("c1", "C")], teamLeaders := [("G", true)]
      , codes := [{ id := 1, code := "USED", teamLeaderId := "G", campaignId := "c1"
                  , used := true, usedAt := some 1 }]
      , feedback := [] } (some "NOPE")).1.status = 400 ∧
    (startSessionV2
      { campaigns := [("c1", "C")], teamLeaders := [("G", true)]
      , codes := [{ id := 1, code := "USED", teamLeaderId := "G", campaignId := "c1"
                  , used := true, usedAt := some 1 }]
      , feedback := [] } (some "USED")).1.status = 400 ∧
    (startSessionV2
      { campaigns := [("c1", "C")], teamLeaders := [("G", true)]
      , codes := [{ id := 1, code := "USED", teamLeaderId := "G", campaignId := "c1"
                  , used := true, usedAt := some 1 }]
      , feedback := [] } none).1.status = 400 := by
  refine ⟨by decide, by decide, by decide⟩

/-- Claim C5 (amended): variant 1 distinguishes the outcomes by
status, 404 for an unknown code, 409 for an already-used code, and
400 for the validation failure of a missing or empty code, the three
statuses pairwise distinct; variant 2 reports all three outcomes with
status 400 (its validation path answers 400 as well) and
distinguishes unknown from used only by the error message. -/
theorem C5_session_errors_amended :
    (∀ (db : DBV1) (raw : Option String),
      (safeUpper raw == "") = false →
      db.codes.find? (fun c => jsToUpper (jsTrim c.code) == safeUpper raw) = none →
      (startSessionV1 db raw).1 = errResp 404 "Invalid code.") ∧
    (∀ (db : DBV1) (raw : Option String) (row : Code),
      (safeUpper raw == "") = false →
      db.codes.find? (fun c => jsToUpper (jsTrim c.code) == safeUpper raw) = some row →
      row.used = true →
      (startSessionV1 db raw).1 = errResp 409 "This code has already been used.") ∧
    ((404 : Nat) ≠ 409 ∧ (404 : Nat) ≠ 400 ∧ (409 : Nat) ≠ 400) ∧
    (∀ (db : DBV2) (raw : Option String),
      falsyStr raw = false →
      db.codes.find? (fun c => c.code == jsTrim (raw.getD "")
          && (db.campaigns.lookup c.campaignId).isSome) = none →
      (startSessionV2 db raw).1 = errResp 400 "Code not found.") ∧
    (∀ (db : DBV2) (raw : Option String) (row : Code),
      falsyStr raw = false →
      db.codes.find? (fun c => c.code == jsTrim (raw.getD "")
          && (db.campaigns.lookup c.campaignId).isSome) = some row →
      row.used = true →
      (startSessionV2 db raw).1 = errResp 400 "This code has already been used.") ∧
    ("Code not found." ≠ "This code has already been used.") ∧
    (∀ (db : DBV1) (raw : Option String),
      (safeUpper raw == "") = true →
      (startSessionV1 db raw).1 = errResp 400 "Code is required.") ∧
    (∀ (db : DBV2) (raw : Option String),
      falsyStr raw = true →
      (startSessionV2 db raw).1 = errResp 400 "Code is required.") := by
  refine ⟨?_, ?_, ⟨by norm_num, by norm_num, by norm_num⟩, ?_, ?_, by decide, ?_, ?_⟩
  · intro db raw hne hfind
    simp only [startSessionV1, hne, hfind]
    simp
  · intro db raw row hne hfind hused
    simp only [startSessionV1, hne, hfind, hused]
    simp
  · intro db raw hne hfind
    simp only [startSessionV2, hne, hfind]
    simp
  · intro db raw row hne hfind hused
    simp only [startSessionV2, hne, hfind, hused]
    simp
  · intro db raw hv
    simp only [startSessionV1, hv]
    simp
  · intro db raw hv
    simp only [startSessionV2, hv]
    simp

/-- Witness for C5: the 404 clause of the amended theorem applied to
an empty codes table and the code X. -/
theorem C5_session_errors_amended_witness :
    (startSessionV1 { campaigns := [], teamLeaders := [], codes := [], feedback := [] }
      (some "X")).1 = errResp 404 "Invalid code." :=
  C5_session_errors_amended.1
    { campaigns := [], teamLeaders := [], codes := [], feedback := [] }
    (some "X") (by decide) rfl

/-! ## Claim C6 -/

/-- Claim C6 as stated is false on the code: in variant 1 a request
with a valid verified credential, an unused code and a valid rating,
but with the three text fields absent, is rejected with 400 before any
store access (the source comment says: require written answers), and
nothing is persisted. -/
theorem C6_optional_texts_cex :
    submitFeedbackV1
      { campaigns := [("c1", "C")], teamLeaders := [("Gill", true)]
      , codes := [{ id := 1, code := "AAAA-BBBB", teamLeaderId := "Gill"
                  , campaignId := "c1", used := false, usedAt := none }]
      , feedback := [] } 0
      { sessionToken := some (some { codeId := 1, campaignId := "c1", teamLeaderId := "Gill" })
      , scores := some [("q1", RVal.num 5)]
      , strengthsText := none, devText := none, otherText := none }
      = (errResp 400 "Please complete all written questions before submitting.",
         { campaigns := [("c1", "C")], teamLeaders := [("Gill", true)]
         , codes := [{ id := 1, code := "AAAA-BBBB", teamLeaderId := "Gill"
                     , campaignId := "c1", used := false, usedAt := none }]
         , feedback := [] }) := by
  decide

/-- Claim C6 (amended): the three free-text fields are optional only
in variant 2, which stores an absent or empty field as null while the
submission succeeds; variant 1 requires all three fields to be
non-empty after trimming and rejects the submission with 400
otherwise. -/
theorem C6_optional_texts_amended :
    (∀ (db : DBV1) (now : Nat) (inp : SubmitInV1) (tok : Option SessionPayload)
       (scores : List (String × RVal)),
      inp.sessionToken = some tok →
      inp.scores = some scores →
      ((safeText inp.strengthsText == "") || (safeText inp.devText == "")
        || (safeText inp.otherText == "")) = true →
      submitFeedbackV1 db now inp
        = (errResp 400 "Please complete all written questions before submitting.", db)) ∧
    (∀ (db : DBV2) (now : Nat) (inp : SubmitInV2) (c : Code),
      falsyStr inp.code = false → falsyStr inp.campaignId = false →
      falsyStr inp.teamLeaderId = false →
      inp.strengthsText = none → inp.devText = none → inp.otherText = none →
      db.codes.find? (fun k => k.code == jsTrim (inp.code.getD "")) = some c →
      c.used = false →
      (submitFeedbackV2 db now inp).1 = okResp ∧
      (submitFeedbackV2 db now inp).2.feedback.map
          (fun f => (f.strengthsText, f.devText, f.otherText))
        = db.feedback.map (fun f => (f.strengthsText, f.devText, f.otherText))
          ++ [((none : Option String), (none : Option String), (none : Option String))]) ∧
    (orNull (some "") = none ∧ orNull none = none) := by
  refine ⟨?_, ?_, by decide, by decide⟩
  · intro db now inp tok scores h1 h2 h3
    simp only [submitFeedbackV1, h1, h2, h3]
    simp
  · intro db now inp c h1 h2 h3 hs hd ho hfind hused
    rw [submitV2_ok db now inp c h1 h2 h3 hfind hused]
    simp [hs, hd, ho, orNull]

/-- Witness for C6: the variant 2 clause of the amended theorem
applied to a concrete submission with all three text fields absent;
it succeeds and stores null for each. -/
theorem C6_optional_texts_amended_witness :
    (submitFeedbackV2
      { campaigns := [("c1", "C")], teamLeaders := [("G", true)]
      , codes := [{ id := 1, code := "AB", teamLeaderId := "G", campaignId := "c1"
                  , used := false, usedAt := none }]
      , feedback := [] } 0
      { code := some "AB", campaignId := some "c1", teamLeaderId := some "G"
      , scores := [("q2", RVal.num 4)]
      , strengthsText := none, devText := none, otherText := none }).1 = okResp ∧
    (submitFeedbackV2
      { campaigns := [("c1", "C")], teamLeaders := [("G", true)]
      , codes := [{ id := 1, code := "AB", teamLeaderId := "G", campaignId := "c1"
                  , used := false, usedAt := none }]
      , feedback := [] } 0
      { code := some "AB", campaignId := some "c1", teamLeaderId := some "G"
      , scores := [("q2", RVal.num 4)]
      , strengthsText := none, devText := none, otherText := none }).2.feedback.map
        (fun f => (f.strengthsText, f.devText, f.otherText))
      = [((none : Option String), (none : Option String), (none : Option String))] :=
  C6_optional_texts_amended.2.1
    { campaigns := [("c1", "C")], teamLeaders := [("G", true)]
    , codes := [{ id := 1, code := "AB", teamLeaderId := "G", campaignId := "c1"
                , used := false, usedAt := none }]
    , feedback := [] } 0
    { code := some "AB", campaignId := some "c1", teamLeaderId := some "G"
    , scores := [("q2", RVal.num 4)]
    , strengthsText := none, devText := none, otherText := none }
    { id := 1, code := "AB", teamLeaderId := "G", campaignId := "c1"
    , used := false, usedAt := none }
    (by decide) (by decide) (by decide) rfl rfl rfl (by decide) rfl

/-! ## Claim C9 -/

/-- Claim C9: code redemption mutates no persistent state in either
variant: the returned state equals the input state for every input
(unknown, used or valid code), and redemption is therefore idempotent,
a second identical request returning the identical response. -/
theorem C9_redemption_pure :
    (∀ (db : DBV1) (raw : Option String), (startSessionV1 db raw).2 = db) ∧
    (∀ (db : DBV2) (raw : Option String), (startSessionV2 db raw).2 = db) ∧
    (∀ (db : DBV1) (raw : Option String),
      startSessionV1 ((startSessionV1 db raw).2) raw = startSessionV1 db raw) ∧
    (∀ (db : DBV2) (raw : Option String),
      startSessionV2 ((startSessionV2 db raw).2) raw = startSessionV2 db raw) := by
  have h1 : ∀ (db : DBV1) (raw : Option String), (startSessionV1 db raw).2 = db := by
    intro db raw
    simp only [startSessionV1]
    split
    · rfl
    · split
      · rfl
      · split <;> rfl
  have h2 : ∀ (db : DBV2) (raw : Option String), (startSessionV2 db raw).2 = db := by
    intro db raw
    simp only [startSessionV2]
    split
    · rfl
    · split
      · rfl
      · split <;> rfl
  exact ⟨h1, h2, fun db raw => by rw [h1], fun db raw => by rw [h2]⟩

/-! ## Claim C10 -/

/-- Claim C10: the variant 2 admin delete-feedback operation removes
the Feedback rows of the (campaign, team leader) pair and resets every
code referenced by a deleted row to used = false and used_at = null
(so such a code passes the unused checks of redemption and submission
again), while codes not referenced by a deleted row survive unchanged;
the variant 1 delete-feedback also removes exactly the Feedback rows
of the pair but leaves the whole codes table untouched. -/
theorem C10_delete_feedback :
    (∀ (db : DBV2) (cid tlid : Option String),
      falsyStr cid = false → falsyStr tlid = false →
      (∀ c ∈ ((deleteFeedbackV2 db cid tlid).2).codes,
        (List.map (fun f => f.code) (db.feedback.filter (fun (f : FeedbackV2) =>
            f.campaignId == cid.getD "" && f.teamLeaderId == tlid.getD ""))).contains
          c.code = true →
        c.used = false ∧ c.usedAt = none) ∧
      (∀ c ∈ db.codes,
        (List.map (fun f => f.code) (db.feedback.filter (fun (f : FeedbackV2) =>
            f.campaignId == cid.getD "" && f.teamLeaderId == tlid.getD ""))).contains
          c.code = false →
        c ∈ ((deleteFeedbackV2 db cid tlid).2).codes) ∧
      ((deleteFeedbackV2 db cid tlid).2).feedback
        = db.feedback.filter (fun (f : FeedbackV2) =>
            ¬ (f.campaignId == cid.getD "" && f.teamLeaderId == tlid.getD ""))) ∧
    (∀ (db : DBV1) (cid tlid : Option String),
      ((deleteFeedbackV1 db cid tlid).2).codes = db.codes) ∧
    (∀ (db : DBV1) (cid tlid : Option String),
      (safeText cid == "") = false → (safeText tlid == "") = false →
      ((deleteFeedbackV1 db cid tlid).2).feedback
        = db.feedback.filter (fun (f : FeedbackV1) =>
            ¬ (f.campaignId == safeText cid && f.teamLeaderId == safeText tlid))) := by
  refine ⟨?_, ?_, ?_⟩
  · intro db cid tlid h1 h2
    simp only [deleteFeedbackV2, h1, h2, Bool.or_self, Bool.false_eq_true, if_false]
    refine ⟨?_, ?_, by simp⟩
    · intro c hc hcontains
      rw [List.mem_map] at hc
      obtain ⟨c0, hc0, rfl⟩ := hc
      by_cases hr : ((List.map (fun f => f.code) (db.feedback.filter (fun (f : FeedbackV2) =>
          f.campaignId == cid.getD "" && f.teamLeaderId == tlid.getD ""))).contains c0.code)
      · rw [if_pos hr]
        exact ⟨rfl, rfl⟩
      · rw [if_neg hr] at hcontains
        exact absurd hcontains hr
    · intro c hc hnot
      refine List.mem_map.mpr ⟨c, hc, ?_⟩
      rw [hnot]
      simp
  · intro db cid tlid
    simp only [deleteFeedbackV1]
    split <;> rfl
  · intro db cid tlid h1 h2
    simp only [deleteFeedbackV1, h1, h2, Bool.or_self, Bool.false_eq_true, if_false]

/-- Witness for C10: deleting the feedback of the pair (c1, G) resets
the referenced used code AB, which is then redeemable again, and
removes exactly the feedback rows of the pair in variant 2; variant 1
likewise removes exactly the feedback rows of the pair. -/
theorem C10_delete_feedback_witness :
    ((deleteFeedbackV2
      { campaigns := [("c1", "C")], teamLeaders := [("G", true)]
      , codes := [{ id := 1, code := "AB", teamLeaderId := "G", campaignId := "c1"
                  , used := true, usedAt := some 7 }]
      , feedback := [{ code := "AB", campaignId := "c1", teamLeaderId := "G"
                     , qcols := [], overall := none, strengthsText := none
                     , devText := none, otherText := none }] }
      (some "c1") (some "G")).2).codes
      = [{ id := 1, code := "AB", teamLeaderId := "G", campaignId := "c1"
         , used := false, usedAt := none }] ∧
    (startSessionV2 ((deleteFeedbackV2
      { campaigns := [("c1", "C")], teamLeaders := [("G", true)]
      , codes := [{ id := 1, code := "AB", teamLeaderId := "G", campaignId := "c1"
                  , used := true, usedAt := some 7 }]
      , feedback := [{ code := "AB", campaignId := "c1", teamLeaderId := "G"
                     , qcols := [], overall := none, strengthsText := none
                     , devText := none, otherText := none }] }
      (some "c1") (some "G")).2) (some "AB")).1 = okResp ∧
    ((deleteFeedbackV2
      { campaigns := [("c1", "C")], teamLeaders := [("G", true)]
      , codes := [{ id := 1, code := "AB", teamLeaderId := "G", campaignId := "c1"
                  , used := true, usedAt := some 7 }]
      , feedback := [{ code := "AB", campaignId := "c1", teamLeaderId := "G"
                     , qcols := [], overall := none, strengthsText := none
                     , devText := none, otherText := none }] }
      (some "c1") (some "G")).2).feedback
      = ([{ code := "AB", campaignId := "c1", teamLeaderId := "G"
          , qcols := [], overall := none, strengthsText := none
          , devText := none, otherText := none }] : List FeedbackV2).filter (fun f =>
            ¬ (f.campaignId == "c1" && f.teamLeaderId == "G")) ∧
    ((deleteFeedbackV1
      { campaigns := [("c1", "C")], teamLeaders := [("G", true)], codes := []
      , feedback := [{ campaignId := "c1", teamLeaderId := "G", scores := []
                     , overall := 0, strengthsText := "a", devText := "b"
                     , otherText := "c" }] }
      (some "c1") (some "G")).2).feedback
      = ([{ campaignId := "c1", teamLeaderId := "G", scores := []
          , overall := 0, strengthsText := "a", devText := "b"
          , otherText := "c" }] : List FeedbackV1).filter (fun (f : FeedbackV1) =>
            ¬ (f.campaignId == safeText (some "c1") && f.teamLeaderId == safeText (some "G"))) := by
  refine ⟨by decide, by decide, ?_, ?_⟩
  · exact ((C10_delete_feedback.1
      { campaigns := [("c1", "C")], teamLeaders := [("G", true)]
      , codes := [{ id := 1, code := "AB", teamLeaderId := "G", campaignId := "c1"
                  , used := true, usedAt := some 7 }]
      , feedback := [{ code := "AB", campaignId := "c1", teamLeaderId := "G"
                     , qcols := [], overall := none, strengthsText := none
                     , devText := none, otherText := none }] }
      (some "c1") (some "G") (by decide) (by decide)).2.2)
  · exact C10_delete_feedback.2.2
      { campaigns := [("c1", "C")], teamLeaders := [("G", true)], codes := []
      , feedback := [{ campaignId := "c1", teamLeaderId := "G", scores := []
                     , overall := 0, strengthsText := "a", devText := "b"
                     , otherText := "c" }] }
      (some "c1") (some "G") (by decide) (by decide)

/-! ## Claim C3 -/

/-- A draw accepted by the inner retry loop is absent from the table
it was checked against. -/
theorem pickFresh_fresh :
    ∀ (stream existing : List String) (c : String) (rest : List String),
      pickFresh existing stream = some (c, rest) → c ∉ existing := by
  intro stream
  induction stream with
  | nil =>
    intro ex c r h
    simp [pickFresh] at h
  | cons a s ih =>
    intro ex c r h
    rw [pickFresh] at h
    by_cases ha : (ex.contains a)
    · rw [if_pos ha] at h
      exact ih ex c r h
    · rw [if_neg ha] at h
      simp at h
      obtain ⟨rfl, -⟩ := h
      simpa using ha

/-- The retry loop of the variant 2 code generator, when it returns,
returns exactly n tokens, pairwise distinct, none of which was in the
table when the loop started. -/
theorem genLoopV2_spec :
    ∀ (n : Nat) (existing stream codes : List String),
      genLoopV2 existing stream n = some codes →
      codes.length = n ∧ codes.Nodup ∧ ∀ t ∈ codes, t ∉ existing := by
  intro n
  induction n with
  | zero =>
    intro existing stream codes h
    simp [genLoopV2] at h
    subst h
    simp
  | succ m ih =>
    intro existing stream codes h
    rw [genLoopV2] at h
    split at h
    · simp at h
    · rename_i c rest hp
      split at h
      · simp at h
      · rename_i cs hg
        have hcodes : codes = c :: cs := by simpa using h.symm
        subst hcodes
        obtain ⟨hlen, hnd, hfresh⟩ := ih (c :: existing) rest cs hg
        have hcne : c ∉ existing := pickFresh_fresh stream existing c rest hp
        refine ⟨by simp [hlen], ?_, ?_⟩
        · exact List.nodup_cons.mpr
            ⟨fun hc => (hfresh c hc) (List.mem_cons_self c existing), hnd⟩
        · intro t ht
          rcases List.mem_cons.mp ht with rfl | ht2
          · exact hcne
          · exact fun hte => (hfresh t ht2) (List.mem_cons_of_mem _ hte)

/-- Claim C3 as stated is false on the code: variant 1 (cited lines
398-435) inserts the whole batch with one multi-row INSERT and has no
regeneration at all, so when the random draws collide with an existing
token (or with each other) the whole request fails with 500 and
returns no codes, instead of discarding the colliding token and
regenerating. -/
theorem C3_generate_codes_cex :
    generateCodesV1
      { campaigns := [("c1", "C")], teamLeaders := [("G", true)]
      , codes := [{ id := 1, code := "AAAA-AAAA", teamLeaderId := "G", campaignId := "c1"
                  , used := false, usedAt := none }]
      , feedback := [] }
      (some "c1") (some "G") (some 2) (fun _ => "AAAA-AAAA")
      = ((errResp 500 "DB error generating codes.", none),
         { campaigns := [("c1", "C")], teamLeaders := [("G", true)]
         , codes := [{ id := 1, code := "AAAA-AAAA", teamLeaderId := "G", campaignId := "c1"
                     , used := false, usedAt := none }]
         , feedback := [] }) := by
  decide

/-- Claim C3 (amended): only variant 2 discards and regenerates a
colliding token (its catch retries on any insert failure, so an
unrelated persistent database error makes the loop retry forever
rather than fail the batch, modelled by the none result); whenever the
loop terminates for a request with non-falsy fields and a non-zero
count, the handler answers 200 with exactly clamp(count) tokens that
are pairwise distinct and absent from the codes table; variant 1
fails the whole batch on any uniqueness conflict. -/
theorem C3_generate_codes_amended :
    ∀ (db : DBV2) (cid tlid : Option String) (cnt : ℚ) (stream codes : List String),
      falsyStr cid = false → falsyStr tlid = false → (cnt == 0) = false →
      genLoopV2 (db.codes.map (fun c => c.code)) stream ⌈max 1 (min cnt 500)⌉₊ = some codes →
      (∃ db2 : DBV2, generateCodesV2 db cid tlid (some cnt) stream
          = some ((okResp, some codes), db2)) ∧
      codes.length = ⌈max 1 (min cnt 500)⌉₊ ∧ codes.Nodup ∧
      ∀ t ∈ codes, t ∉ db.codes.map (fun c => c.code) := by
  intro db cid tlid cnt stream codes h1 h2 h3 hloop
  obtain ⟨hlen, hnd, hfresh⟩ :=
    genLoopV2_spec ⌈max 1 (min cnt 500)⌉₊ (db.codes.map (fun c => c.code)) stream codes hloop
  refine ⟨?_, hlen, hnd, hfresh⟩
  simp only [generateCodesV2, Option.getD_some, h1, h2, h3, hloop, Bool.or_self,
    Bool.false_eq_true, if_false]
  exact ⟨_, rfl⟩

/-- Witness for C3: with an empty table, count 2 and the draw stream
AB, AB, CD, the loop discards the second colliding AB and returns the
two distinct fresh tokens AB and CD. -/
theorem C3_generate_codes_amended_witness :
    genLoopV2 (({ campaigns := [], teamLeaders := [], codes := [], feedback := [] } :
        DBV2).codes.map (fun c => c.code)) ["AB", "AB", "CD"] ⌈max 1 (min (2 : ℚ) 500)⌉₊
      = some ["AB", "CD"] ∧
    ["AB", "CD"].length = ⌈max 1 (min (2 : ℚ) 500)⌉₊ ∧
    (["AB", "CD"] : List String).Nodup := by
  have hloop : genLoopV2 (({ campaigns := [], teamLeaders := [], codes := [], feedback := [] } :
      DBV2).codes.map (fun c => c.code)) ["AB", "AB", "CD"] ⌈max 1 (min (2 : ℚ) 500)⌉₊
      = some ["AB", "CD"] := by decide
  have h := C3_generate_codes_amended
    { campaigns := [], teamLeaders := [], codes := [], feedback := [] }
    (some "c1") (some "G") 2 ["AB", "AB", "CD"] ["AB", "CD"]
    (by decide) (by decide) (by decide) hloop
  exact ⟨hloop, h.2.1, h.2.2.1⟩

/-! ## Claim C1 -/

/-- Claim C1 as stated is false on the code: the claim also cites
the variant 2 submit handler (lines 1076-1146), whose used-check
SELECT runs BEFORE the BEGIN of the transaction and takes no row
lock, so two racing submissions of the same code can both observe it
unused before either transaction commits.  Concretely: in the state
with the single unused code AB, the pre-transaction check
(submitV2Check, lines 1076-1087) passes for both requests in that
same state, and after both transactions (submitV2Commit, lines
1089-1139, each atomic) commit in turn, the reachable final state
holds the code marked used together with TWO feedback rows produced
by its submissions, contradicting the claimed at-most-once atomic
consumption (no reachable state with a used code and two feedback
rows). -/
theorem C1_code_consumed_once_cex :
    submitV2Check
      { campaigns := [("c1", "C")], teamLeaders := [("G", true)]
      , codes := [{ id := 1, code := "AB", teamLeaderId := "G", campaignId := "c1"
                  , used := false, usedAt := none }]
      , feedback := [] }
      { code := some "AB", campaignId := some "c1", teamLeaderId := some "G"
      , scores := [], strengthsText := none, devText := none, otherText := none }
      = none ∧
    List.map (fun (f : FeedbackV2) => f.code) (submitV2Commit (submitV2Commit
      { campaigns := [("c1", "C")], teamLeaders := [("G", true)]
      , codes := [{ id := 1, code := "AB", teamLeaderId := "G", campaignId := "c1"
                  , used := false, usedAt := none }]
      , feedback := [] } 0
      { code := some "AB", campaignId := some "c1", teamLeaderId := some "G"
      , scores := [], strengthsText := none, devText := none, otherText := none }) 0
      { code := some "AB", campaignId := some "c1", teamLeaderId := some "G"
      , scores := [], strengthsText := none, devText := none, otherText := none }).feedback
      = ["AB", "AB"] ∧
    List.map (fun (c : Code) => c.used) (submitV2Commit (submitV2Commit
      { campaigns := [("c1", "C")], teamLeaders := [("G", true)]
      , codes := [{ id := 1, code := "AB", teamLeaderId := "G", campaignId := "c1"
                  , used := false, usedAt := none }]
      , feedback := [] } 0
      { code := some "AB", campaignId := some "c1", teamLeaderId := some "G"
      , scores := [], strengthsText := none, devText := none, otherText := none }) 0
      { code := some "AB", campaignId := some "c1", teamLeaderId := some "G"
      , scores := [], strengthsText := none, devText := none, otherText := none }).codes
      = [true] := by
  refine ⟨by decide, by decide, by decide⟩

/-- Claim C1 (amended): in variant 1 the claim holds, with the row
lock serializing check and consumption: (i) a submission whose
verified payload references an already-used code never answers 200
and leaves the state untouched; (ii) past all validation it answers
exactly the 409 conflict with the state unchanged; (iii) a successful
submission requires the referenced code to have been unused and, in
the same step, appends exactly one feedback row and marks exactly
that code used with a timestamp; (iv) over any serialized trace of
submissions against a code that starts unused, at most one submission
persists a feedback row for it, and the code ends used exactly when
that one submission happened; (v) the feedback table grows by exactly
the number of successful submissions.  Variant 2 performs the same
steps when submissions are serialized: (vi) its handler decomposes
into the pre-transaction check and the atomic transaction; (vii) a
submission of a used code answers 400 Code already used and persists
nothing; (viii) a successful submission appends one feedback row and
marks the code used in the same returned state.  But because the
variant 2 check runs before the transaction without a row lock, two
interleaved submissions can both pass it and persist two feedback
rows for one code (the counterexample). -/
theorem C1_code_consumed_once :
    (∀ (db : DBV1) (now : Nat) (inp : SubmitInV1) (p : SessionPayload) (c : Code),
      inp.sessionToken = some (some p) →
      db.codes.find? (fun k => k.id == p.codeId) = some c → c.used = true →
      (submitFeedbackV1 db now inp).1.status ≠ 200 ∧
      (submitFeedbackV1 db now inp).2 = db) ∧
    (∀ (db : DBV1) (now : Nat) (inp : SubmitInV1) (p : SessionPayload)
       (scores : List (String × RVal)) (c : Code) (ov : ℚ),
      inp.sessionToken = some (some p) → inp.scores = some scores →
      ((safeText inp.strengthsText == "") || (safeText inp.devText == "")
        || (safeText inp.otherText == "")) = false →
      ((p.codeId == 0) || (p.campaignId == "") || (p.teamLeaderId == "")) = false →
      overallOfScores scores = some ov →
      db.codes.find? (fun k => k.id == p.codeId) = some c → c.used = true →
      submitFeedbackV1 db now inp
        = (errResp 409 "This code has already been used.", db)) ∧
    (∀ (db : DBV1) (now : Nat) (inp : SubmitInV1),
      (submitFeedbackV1 db now inp).1.status = 200 →
      ∃ (p : SessionPayload) (c : Code),
        inp.sessionToken = some (some p) ∧
        db.codes.find? (fun k => k.id == p.codeId) = some c ∧ c.used = false ∧
        (submitFeedbackV1 db now inp).2.feedback.length = db.feedback.length + 1 ∧
        (submitFeedbackV1 db now inp).2.codes.find? (fun k => k.id == p.codeId)
          = some { c with used := true, usedAt := some now }) ∧
    (∀ (reqs : List SubmitInV1) (db : DBV1) (now cid : Nat) (c : Code),
      db.codes.find? (fun k => k.id == cid) = some c → c.used = false →
      okCountFor db now cid reqs ≤ 1 ∧
      ((∃ c2, (runSubmitsV1 db now reqs).codes.find? (fun k => k.id == cid) = some c2 ∧
          c2.used = true) ↔ okCountFor db now cid reqs = 1)) ∧
    (∀ (reqs : List SubmitInV1) (db : DBV1) (now : Nat),
      (runSubmitsV1 db now reqs).feedback.length
        = db.feedback.length + okCountAll db now reqs) ∧
    (∀ (db : DBV2) (now : Nat) (inp : SubmitInV2),
      submitFeedbackV2 db now inp
        = match submitV2Check db inp with
          | some r => (r, db)
          | none => (okResp, submitV2Commit db now inp)) ∧
    (∀ (db : DBV2) (now : Nat) (inp : SubmitInV2) (c : Code),
      falsyStr inp.code = false → falsyStr inp.campaignId = false →
      falsyStr inp.teamLeaderId = false →
      db.codes.find? (fun k => k.code == jsTrim (inp.code.getD "")) = some c →
      c.used = true →
      submitFeedbackV2 db now inp = (errResp 400 "Code already used.", db)) ∧
    (∀ (db : DBV2) (now : Nat) (inp : SubmitInV2) (c : Code),
      falsyStr inp.code = false → falsyStr inp.campaignId = false →
      falsyStr inp.teamLeaderId = false →
      db.codes.find? (fun k => k.code == jsTrim (inp.code.getD "")) = some c →
      c.used = false →
      (submitFeedbackV2 db now inp).1 = okResp ∧
      (submitFeedbackV2 db now inp).2.feedback.length = db.feedback.length + 1 ∧
      (submitFeedbackV2 db now inp).2.codes
        = markUsedByCode now (jsTrim (inp.code.getD "")) db.codes) := by
  refine ⟨?_, ?_, ?_, runSubmitsV1_once, runSubmitsV1_feedback, ?_, ?_, ?_⟩
  · intro db now inp p c htok hfind hused
    have hne : (submitFeedbackV1 db now inp).1.status ≠ 200 := by
      intro hok
      obtain ⟨p2, c2, htok2, -, hfind2, hun2, -, -, -⟩ := submitV1_ok_shape db now inp hok
      have hp : p = p2 := by
        have h0 := htok.symm.trans htok2
        simpa using h0
      rw [← hp] at hfind2
      rw [hfind2] at hfind
      injection hfind with hc
      rw [← hc, hun2] at hused
      exact Bool.noConfusion hused
    exact ⟨hne, submitV1_frame db now inp hne⟩
  · intro db now inp p scores c ov h1 h2 h3 h4 h5 h6 h7
    simp only [submitFeedbackV1, h1, h2, h3, h4, h5, h6, h7]
    simp
  · intro db now inp hok
    obtain ⟨p, c, htok, hrq, hfind, hun, hpid, hcodes, hflen⟩ :=
      submitV1_ok_shape db now inp hok
    refine ⟨p, c, htok, hfind, hun, hflen, ?_⟩
    rw [hcodes, find?_markUsed, hfind]
    show some (if c.id == p.codeId then { c with used := true, usedAt := some now } else c)
      = some { c with used := true, usedAt := some now }
    rw [hpid]
    simp
  · intro db now inp
    simp only [submitFeedbackV2, submitV2Check, submitV2Commit]
    split
    · rfl
    · split
      · rfl
      · split <;> rfl
  · intro db now inp c h1 h2 h3 hfind hused
    simp only [submitFeedbackV2, h1, h2, h3, hfind, hused]
    simp
  · intro db now inp c h1 h2 h3 hfind hused
    rw [submitV2_ok db now inp c h1 h2 h3 hfind hused]
    refine ⟨rfl, by simp, rfl⟩

/-- Witness for C1: the conflict clause of the theorem applied to a
concrete state whose code row 1 is already used; the submission
answers 409 and the state is returned unchanged. -/
theorem C1_code_consumed_once_witness :
    submitFeedbackV1
      { campaigns := [("c1", "C")], teamLeaders := [("Gill", true)]
      , codes := [{ id := 1, code := "AAAA-BBBB", teamLeaderId := "Gill", campaignId := "c1"
                  , used := true, usedAt := some 5 }]
      , feedback := [] } 0
      { sessionToken := some (some { codeId := 1, campaignId := "c1", teamLeaderId := "Gill" })
      , scores := some [("q1", RVal.num 4)]
      , strengthsText := some "s", devText := some "d", otherText := some "o" }
      = (errResp 409 "This code has already been used.",
         { campaigns := [("c1", "C")], teamLeaders := [("Gill", true)]
         , codes := [{ id := 1, code := "AAAA-BBBB", teamLeaderId := "Gill", campaignId := "c1"
                     , used := true, usedAt := some 5 }]
         , feedback := [] }) :=
  C1_code_consumed_once.2.1
    { campaigns := [("c1", "C")], teamLeaders := [("Gill", true)]
    , codes := [{ id := 1, code := "AAAA-BBBB", teamLeaderId := "Gill", campaignId := "c1"
                , used := true, usedAt := some 5 }]
    , feedback := [] } 0
    { sessionToken := some (some { codeId := 1, campaignId := "c1", teamLeaderId := "Gill" })
    , scores := some [("q1", RVal.num 4)]
    , strengthsText := some "s", devText := some "d", otherText := some "o" }
    { codeId := 1, campaignId := "c1", teamLeaderId := "Gill" }
    [("q1", RVal.num 4)]
    { id := 1, code := "AAAA-BBBB", teamLeaderId := "Gill", campaignId := "c1"
    , used := true, usedAt := some 5 } 4
    rfl rfl (by decide) (by decide)
    (by
      have hv : ([("q1", RVal.num 4)].map Prod.snd).filterMap toNumber = [4] := by decide
      simp only [overallOfScores, hv]
      norm_num)
    (by decide) rfl

end TLFB
